import Mathlib

/-!
Verification of the CADpython geometry-synthesis engine.

This file shallowly embeds, over exact rational arithmetic (`ℚ` in place of
Python floats; all constants in the source are exactly representable), the
geometry-producing code of `extruder_3d.py` and `cad_generator.py`:

* the room mesh (`Extruder3D._create_room_mesh`) with its wall-opening
  segmentation for the west-wall door and north-wall window;
* the chair / table / sofa / cabinet / house mesh builders and the
  type dispatcher `_create_mesh_from_type`;
* the sentinel-separated 2D polyline path generators
  (`_generate_chair_top_view`, `_generate_chair_front_view`,
  `_generate_table_top_view`, `_generate_sofa_top_view`) together with the
  run-splitting performed by `_draw_view_dxf` / `_draw_view_svg`;
* the `_generate_top_view` dispatcher, including its failure branches
  (an argument-count mismatch for rooms and calls to methods that are not
  defined anywhere in the class for house / circle / generic tags);
* the SVG drawing routine `_draw_furniture_svg` (geometry and label
  elements; purely stylistic attributes such as colors, stroke widths and
  corner radii are not part of the model).

Theorems below settle the frozen claims C1 - C10 about this code.
-/

namespace CADpython

/-- A point in 3-space with exact rational coordinates. -/
structure Vec3 where
  x : ℚ
  y : ℚ
  z : ℚ
deriving DecidableEq, Repr

/-- An axis-aligned box given by its center and its full extents along the
three axes, mirroring `trimesh.creation.box(extents=..)` followed by a
translation to `center`. -/
structure Box3 where
  center : Vec3
  extents : Vec3
deriving DecidableEq, Repr

/-- The feature dictionary consumed by the generators, restricted to the
keys the source code reads.  A `none` field models an absent key. -/
structure Features where
  legs : Option ℤ := none
  doors : Option ℤ := none
  windows : Option ℤ := none
  seats : Option ℤ := none
  seatShape : Option String := none
  hasGarage : Option Bool := none
  style : Option String := none
  bedrooms : Option ℤ := none
deriving DecidableEq, Repr

/- ----------------------------------------------------------------------
Room mesh: `Extruder3D._create_room_mesh` (extruder_3d.py lines 305-422).
All named constants below are the literals of that function.
---------------------------------------------------------------------- -/

/-- Constant `wall_thickness = 0.2` in `_create_room_mesh`. -/
def wallThickness : ℚ := 0.2

/-- Constant `door_width = 0.8` (west-wall door opening). -/
def doorWidth : ℚ := 0.8

/-- Constant `door_height = 2.0` (west-wall door opening). -/
def doorHeight : ℚ := 2.0

/-- Constant `window_width = 1.2` (north-wall window opening). -/
def windowWidth : ℚ := 1.2

/-- Constant `window_height = 1.0` (north-wall window opening). -/
def windowHeight : ℚ := 1.0

/-- Constant `window_from_floor = 1.0` (sill height of the north-wall window). -/
def windowFromFloor : ℚ := 1.0

/-- The surviving west-wall sub-panels around the door opening
(extruder_3d.py lines 339-355): `wall_left`, `wall_right`, and — only when
`height - door_height > 0` — `wall_above_door`. -/
def westWallBoxes (width length height : ℚ) : List Box3 :=
  [ { center := ⟨-width/2 - wallThickness/2, -length/4 - doorWidth/4, 0⟩,
      extents := ⟨wallThickness, (length - doorWidth)/2, height⟩ },
    { center := ⟨-width/2 - wallThickness/2, length/4 + doorWidth/4, 0⟩,
      extents := ⟨wallThickness, (length - doorWidth)/2, height⟩ } ]
  ++ (if height - doorHeight > 0 then
      [ { center := ⟨-width/2 - wallThickness/2, 0, height/2 - (height - doorHeight)/2⟩,
          extents := ⟨wallThickness, doorWidth, height - doorHeight⟩ } ]
      else [])

/-- The door-frame boxes of the west wall (extruder_3d.py lines 357-371):
`door_frame_top`, `door_frame_left`, `door_frame_right`. -/
def doorFrameBoxes (width height : ℚ) : List Box3 :=
  [ { center := ⟨-width/2 - wallThickness/2, 0, -height/2 + doorHeight⟩,
      extents := ⟨0.05, doorWidth + 0.1, 0.1⟩ },
    { center := ⟨-width/2 - wallThickness/2, -doorWidth/2, -height/2 + doorHeight/2⟩,
      extents := ⟨0.05, 0.05, doorHeight⟩ },
    { center := ⟨-width/2 - wallThickness/2, doorWidth/2, -height/2 + doorHeight/2⟩,
      extents := ⟨0.05, 0.05, doorHeight⟩ } ]

/-- The surviving north-wall sub-panels around the window opening
(extruder_3d.py lines 378-399): `wall_left_window`, `wall_right_window`,
`wall_below_window`, and — only when
`height - window_from_floor - window_height > 0` — `wall_above_window`. -/
def northWallBoxes (width length height : ℚ) : List Box3 :=
  [ { center := ⟨-(width + windowWidth)/4, length/2 + wallThickness/2, 0⟩,
      extents := ⟨(width - windowWidth)/2, wallThickness, height⟩ },
    { center := ⟨(width + windowWidth)/4, length/2 + wallThickness/2, 0⟩,
      extents := ⟨(width - windowWidth)/2, wallThickness, height⟩ },
    { center := ⟨0, length/2 + wallThickness/2, -height/2 + windowFromFloor/2⟩,
      extents := ⟨windowWidth, wallThickness, windowFromFloor⟩ } ]
  ++ (if height - windowFromFloor - windowHeight > 0 then
      [ { center := ⟨0, length/2 + wallThickness/2,
                     height/2 - (height - windowFromFloor - windowHeight)/2⟩,
          extents := ⟨windowWidth, wallThickness, height - windowFromFloor - windowHeight⟩ } ]
      else [])

/-- The window-frame boxes of the north wall (extruder_3d.py lines 401-419):
left, right, top, bottom frame members. -/
def windowFrameBoxes (_width length height : ℚ) : List Box3 :=
  [ { center := ⟨-windowWidth/2, length/2 + wallThickness/2,
                 windowFromFloor + windowHeight/2 - height/2⟩,
      extents := ⟨0.05, 0.03, windowHeight⟩ },
    { center := ⟨windowWidth/2, length/2 + wallThickness/2,
                 windowFromFloor + windowHeight/2 - height/2⟩,
      extents := ⟨0.05, 0.03, windowHeight⟩ },
    { center := ⟨0, length/2 + wallThickness/2, windowFromFloor + windowHeight - height/2⟩,
      extents := ⟨windowWidth, 0.03, 0.05⟩ },
    { center := ⟨0, length/2 + wallThickness/2, windowFromFloor - height/2⟩,
      extents := ⟨windowWidth, 0.03, 0.05⟩ } ]

/-- Embedding of `Extruder3D._create_room_mesh(width, length, height, features)`.
The `features` parameter exists in the Python signature (default `None`)
but is never read by the body; the box list below is the exact sequence of
`trimesh` boxes the function concatenates: floor, ceiling, east wall,
south wall, west-wall door segmentation, door frame, north-wall window
segmentation, window frame. -/
def createRoomMesh (width length height : ℚ) (_features : Features) : List Box3 :=
  [ { center := ⟨0, 0, -height/2⟩,
      extents := ⟨width + 2*wallThickness, length + 2*wallThickness, 0.1⟩ },
    { center := ⟨0, 0, height/2 - 0.05⟩,
      extents := ⟨width + 2*wallThickness, length + 2*wallThickness, 0.1⟩ },
    { center := ⟨width/2 + wallThickness/2, 0, 0⟩,
      extents := ⟨wallThickness, length, height⟩ },
    { center := ⟨0, -length/2 - wallThickness/2, 0⟩,
      extents := ⟨width, wallThickness, height⟩ } ]
  ++ westWallBoxes width length height
  ++ doorFrameBoxes width height
  ++ northWallBoxes width length height
  ++ windowFrameBoxes width length height

/-- Face area of a wall box lying in the (y,z) plane (the west wall). -/
def areaYZ (b : Box3) : ℚ := b.extents.y * b.extents.z

/-- Face area of a wall box lying in the (x,z) plane (the north wall). -/
def areaXZ (b : Box3) : ℚ := b.extents.x * b.extents.z

/-- Sum of the (y,z) face areas of a list of wall boxes. -/
def sumAreaYZ (bs : List Box3) : ℚ := (bs.map areaYZ).sum

/-- Sum of the (x,z) face areas of a list of wall boxes. -/
def sumAreaXZ (bs : List Box3) : ℚ := (bs.map areaXZ).sum

/-- Two boxes overlap in the (y,z) wall plane iff their open interiors
intersect there: the center distance is below the half-extent sum on both
plane axes. -/
def overlapYZ (a b : Box3) : Prop :=
  |a.center.y - b.center.y| < (a.extents.y + b.extents.y)/2 ∧
  |a.center.z - b.center.z| < (a.extents.z + b.extents.z)/2

/-- Two boxes overlap in the (x,z) wall plane iff their open interiors
intersect there. -/
def overlapXZ (a b : Box3) : Prop :=
  |a.center.x - b.center.x| < (a.extents.x + b.extents.x)/2 ∧
  |a.center.z - b.center.z| < (a.extents.z + b.extents.z)/2

/-- Lower z-coordinate of a box. -/
def zLow (b : Box3) : ℚ := b.center.z - b.extents.z/2

/-- Upper z-coordinate of a box. -/
def zHigh (b : Box3) : ℚ := b.center.z + b.extents.z/2

/- ----------------------------------------------------------------------
3D primitives and the per-type mesh builders of extruder_3d.py.
---------------------------------------------------------------------- -/

/-- A 3D primitive as produced by the mesh builders.

* `box` — `trimesh.creation.box` translated to a center;
* `cylZ` — a z-axis cylinder translated to a center;
* `cylY` — a cylinder rotated by pi/2 about the x axis (axis along y),
  used for the cabinet door handles;
* `cylPolarZ` — a z-axis cylinder whose (x,y) position the source computes
  as `(d*cos(angle), d*sin(angle))`; the angle (in degrees) and the
  distance `d` are stored symbolically so the embedding stays inside `ℚ`
  (the encoding is lossless: radius, height, `d`, angle and the z center
  determine the cylinder exactly);
* `smoothBox` — `_create_rounded_box`: a box that is subdivided and
  Laplacian-smoothed; the defining extents and center are kept;
* `diffBox` — the boolean difference `outer.difference(inner)` of two
  boxes (house walls);
* `poly` — a raw `trimesh.Trimesh(vertices, faces)` polyhedron. -/
inductive Prim where
  | box (b : Box3)
  | cylZ (radius height : ℚ) (center : Vec3)
  | cylY (radius height : ℚ) (center : Vec3)
  | cylPolarZ (radius height distFromCenter angleDeg zCenter : ℚ)
  | smoothBox (extents center : Vec3)
  | diffBox (outer inner : Box3)
  | poly (vertices : List Vec3) (faces : List (ℕ × ℕ × ℕ))
deriving DecidableEq, Repr

/-- Embedding of `Extruder3D._create_chair_mesh(width, length, height, features)`
(extruder_3d.py lines 72-104).  The `features` parameter is accepted
(default `None`) but never read: the mesh is always one seat slab at
`0.45*height` plus exactly four legs at the fixed corner positions. -/
def createChairMesh (width length height : ℚ) (_features : Features) : List Prim :=
  Prim.box { center := ⟨0, 0, 0.45*height⟩, extents := ⟨width, length, 0.05⟩ } ::
  ([ ⟨width/2 - 0.05, length/2 - 0.05, 0.45*height/2⟩,
     ⟨-width/2 + 0.05, length/2 - 0.05, 0.45*height/2⟩,
     ⟨-width/2 + 0.05, -length/2 + 0.05, 0.45*height/2⟩,
     ⟨width/2 - 0.05, -length/2 + 0.05, 0.45*height/2⟩ ] : List Vec3).map
    (fun p => Prim.box { center := p, extents := ⟨0.04, 0.04, 0.45*height⟩ })

/-- Embedding of `Extruder3D._create_table_mesh` (extruder_3d.py lines 106-155).
Circular branch when `features.get(seat_shape) == circular`: a
cylindrical top of radius `width/2` plus `features.get(legs, 4)` legs of
radius `0.03` placed at distance `0.7*width/2` from the center, leg `i` at
angle `2*pi*i/num_legs - pi/2` radians, stored here in degrees as
`360*i/num_legs - 90`.  Rectangular branch otherwise: a box top plus four
corner box legs. -/
def createTableMesh (width length height : ℚ) (features : Features) : List Prim :=
  if features.seatShape = some "circular" then
    Prim.cylZ (width/2) 0.05 ⟨0, 0, height - 0.05/2⟩ ::
    (List.range (features.legs.getD 4).toNat).map
      (fun i => Prim.cylPolarZ (0.06/2) (height - 0.05)
        ((width/2) * 0.7)
        (360 * (i : ℚ) / ((features.legs.getD 4).toNat : ℚ) - 90)
        ((height - 0.05)/2))
  else
    Prim.box { center := ⟨0, 0, height - 0.05/2⟩, extents := ⟨width, length, 0.05⟩ } ::
    ([ (-width/2 + 0.06/2, -length/2 + 0.06/2),
       (width/2 - 0.06/2, -length/2 + 0.06/2),
       (-width/2 + 0.06/2, length/2 - 0.06/2),
       (width/2 - 0.06/2, length/2 - 0.06/2) ] : List (ℚ × ℚ)).map
      (fun p => Prim.box { center := ⟨p.1, p.2, (height - 0.05)/2⟩,
                           extents := ⟨0.06, 0.06, height - 0.05⟩ })

/-- The Python idiom `int(features.get(key, d) or d)`: an absent key or a
stored `0` (falsy) both yield the default `d`. -/
def getOrDefault (v : Option ℤ) (d : ℤ) : ℤ :=
  match v with
  | none => d
  | some 0 => d
  | some n => n

/-- Embedding of `Extruder3D._create_sofa_mesh` (extruder_3d.py lines 236-286).
`sofa_width = length`, `sofa_depth = width`; seat slab of height
`0.45*height`, backrest slab of height `0.55*height` sitting on the seat,
two armrests, and one cushion per seat (`int(features.get(seats, 2) or 2)`).
All five piece kinds go through `_create_rounded_box`, modelled by
`Prim.smoothBox`. -/
def createSofaMesh (width length height : ℚ) (features : Features) : List Prim :=
  [ Prim.smoothBox ⟨length, width, 0.45*height⟩ ⟨0, 0, (0.45*height)/2⟩,
    Prim.smoothBox ⟨length, width*0.2, 0.55*height⟩
      ⟨0, -width/2 + (width*0.2)/2, 0.45*height + (0.55*height)/2⟩,
    Prim.smoothBox ⟨length*0.12, width - width*0.2, 0.45*height⟩
      ⟨-length/2 + (length*0.12)/2, (width*0.2)/2, 0.45*height + (0.45*height)/2⟩,
    Prim.smoothBox ⟨length*0.12, width - width*0.2, 0.45*height⟩
      ⟨length/2 - (length*0.12)/2, (width*0.2)/2, 0.45*height + (0.45*height)/2⟩ ]
  ++ (List.range (getOrDefault features.seats 2).toNat).map (fun i =>
      Prim.smoothBox
        ⟨((length - 2*(length*0.12)) / ((getOrDefault features.seats 2).toNat : ℚ)) * 0.95,
         (width - width*0.2) * 0.95,
         (0.45*height) * 0.15⟩
        ⟨-length/2 + length*0.12
           + ((length - 2*(length*0.12)) / ((getOrDefault features.seats 2).toNat : ℚ))/2
           + (i : ℚ) * ((length - 2*(length*0.12)) / ((getOrDefault features.seats 2).toNat : ℚ)),
         (width*0.2)/2,
         0.45*height + ((0.45*height) * 0.15)/2⟩)

/-- Embedding of `Extruder3D._create_cabinet_mesh` (extruder_3d.py lines 157-234):
five carcase slabs, then per door (count `features.get(doors, 2)`) one
door slab and one handle cylinder (axis along y), then four leg cylinders. -/
def createCabinetMesh (width length height : ℚ) (features : Features) : List Prim :=
  [ Prim.box { center := ⟨0, length/2 - 0.02/2, 0⟩, extents := ⟨width, 0.02, height⟩ },
    Prim.box { center := ⟨-width/2 + 0.02/2, 0, 0⟩, extents := ⟨0.02, length, height⟩ },
    Prim.box { center := ⟨width/2 - 0.02/2, 0, 0⟩, extents := ⟨0.02, length, height⟩ },
    Prim.box { center := ⟨0, 0, height/2 - 0.02/2⟩, extents := ⟨width, length, 0.02⟩ },
    Prim.box { center := ⟨0, 0, -height/2 + 0.02/2⟩, extents := ⟨width, length, 0.02⟩ } ]
  ++ (List.range (features.doors.getD 2).toNat).flatMap (fun i =>
      [ Prim.box { center := ⟨-width/2 + (width / ((features.doors.getD 2).toNat : ℚ))/2
                                + (i : ℚ) * (width / ((features.doors.getD 2).toNat : ℚ)),
                              -length/2 + 0.015/2, 0⟩,
                   extents := ⟨width / ((features.doors.getD 2).toNat : ℚ) - 0.01, 0.015,
                              height - 0.1⟩ },
        Prim.cylY 0.01 0.08
          ⟨(if (i : ℚ) < ((features.doors.getD 2).toNat : ℚ) / 2 then
              -width/2 + (width / ((features.doors.getD 2).toNat : ℚ))/2
                + (i : ℚ) * (width / ((features.doors.getD 2).toNat : ℚ))
                + (width / ((features.doors.getD 2).toNat : ℚ))/2 - 0.05
            else
              -width/2 + (width / ((features.doors.getD 2).toNat : ℚ))/2
                + (i : ℚ) * (width / ((features.doors.getD 2).toNat : ℚ))
                - (width / ((features.doors.getD 2).toNat : ℚ))/2 + 0.05),
           -length/2 - 0.02, 0⟩ ])
  ++ ([ (-width/2 + 0.05, -length/2 + 0.05),
        (width/2 - 0.05, -length/2 + 0.05),
        (-width/2 + 0.05, length/2 - 0.05),
        (width/2 - 0.05, length/2 - 0.05) ] : List (ℚ × ℚ)).map
      (fun p => Prim.cylZ 0.015 0.05 ⟨p.1, p.2, -height/2 - 0.05/2⟩)

/-- Embedding of `Extruder3D._create_house_mesh` (extruder_3d.py lines 424-540).
Main hollow body (boolean difference of two boxes), an optional garage
body, a flat slab roof for `style == modern` or a triangular-prism
polyhedron otherwise, the entrance door, and the side-wall windows
(`int(features.get(windows, 4) or 4)`, `windows_per_side = n // 2`). -/
def createHouseMesh (width length height : ℚ) (features : Features) : List Prim :=
  let hasGarage := features.hasGarage.getD false
  let mainWidth := if hasGarage then width * 0.75 else width
  let dx := if hasGarage then -(width - mainWidth)/2 else 0
  let windowsPerSide := ((getOrDefault features.windows 4).fdiv 2).toNat
  [ Prim.diffBox
      { center := ⟨dx, 0, 0⟩, extents := ⟨mainWidth, length, height⟩ }
      { center := ⟨dx, 0, 0.3/2⟩,
        extents := ⟨mainWidth - 2*0.3, length - 2*0.3, height - 0.3⟩ } ]
  ++ (if hasGarage then
      [ Prim.diffBox
          { center := ⟨width/2 - (width*0.25)/2, -length/2 + (length*0.5)/2, -height*0.15⟩,
            extents := ⟨width*0.25, length*0.5, height*0.7⟩ }
          { center := ⟨width/2 - (width*0.25)/2, -length/2 + (length*0.5)/2,
                       -height*0.15 + 0.3/2⟩,
            extents := ⟨width*0.25 - 2*0.3, length*0.5 - 2*0.3, height*0.7 - 0.3⟩ } ]
      else [])
  ++ (if features.style = some "modern" then
      [ Prim.box { center := ⟨dx, 0, height/2 + 0.15/2⟩,
                   extents := ⟨mainWidth + 0.5, length + 0.5, 0.15⟩ } ]
      else
      [ Prim.poly
          [ ⟨-mainWidth/2 + dx, -length/2, height/2⟩,
            ⟨mainWidth/2 + dx, -length/2, height/2⟩,
            ⟨mainWidth/2 + dx, length/2, height/2⟩,
            ⟨-mainWidth/2 + dx, length/2, height/2⟩,
            ⟨dx, -length/2, height/2 + height*0.3⟩,
            ⟨dx, length/2, height/2 + height*0.3⟩ ]
          [ (0,1,4), (1,2,4), (2,3,5), (3,0,5), (4,5,1), (5,4,3) ] ])
  ++ [ Prim.box { center := ⟨dx, -length/2 - 0.3/2, -height/2 + 2.0/2⟩,
                  extents := ⟨0.9, 0.05, 2.0⟩ } ]
  ++ (List.range windowsPerSide).flatMap (fun i =>
      [ Prim.box { center := ⟨(-mainWidth/2 - 0.3/2) - (if hasGarage then (width - mainWidth)/2 else 0),
                              -length/2 + (length / ((windowsPerSide : ℚ) + 1)) * ((i : ℚ) + 1),
                              height * 0.15⟩,
                   extents := ⟨0.05, 1.2, 1.5⟩ },
        Prim.box { center := ⟨(mainWidth/2 + 0.3/2) - (if hasGarage then (width - mainWidth)/2 else 0),
                              -length/2 + (length / ((windowsPerSide : ℚ) + 1)) * ((i : ℚ) + 1),
                              height * 0.15⟩,
                   extents := ⟨0.05, 1.2, 1.5⟩ } ])

/-- Embedding of `Extruder3D._create_mesh_from_type` (extruder_3d.py lines 625-648):
dispatch on the furniture-type string; any unmatched tag falls back to a
single box of extents `width x length x height`. -/
def createMeshFromType (furnitureType : String) (width length height : ℚ)
    (features : Features) : List Prim :=
  if furnitureType = "chair" then createChairMesh width length height features
  else if furnitureType = "table" then createTableMesh width length height features
  else if furnitureType = "sofa" then createSofaMesh width length height features
  else if furnitureType = "cabinet" then createCabinetMesh width length height features
  else if furnitureType = "room" then (createRoomMesh width length height features).map Prim.box
  else if furnitureType = "house" then createHouseMesh width length height features
  else [ Prim.box { center := ⟨0, 0, 0⟩, extents := ⟨width, length, height⟩ } ]

/- ----------------------------------------------------------------------
2D sentinel-separated polyline paths (cad_generator.py).  The source
builds flat Python lists whose entries are points or the sentinel `None`
marking a pen break; `_draw_view_dxf` / `_draw_view_svg` split such a
list into maximal runs of points and emit one polyline per non-empty run.
---------------------------------------------------------------------- -/

/-- A 2D point. -/
abbrev Pt := ℚ × ℚ

/-- An entry of a sentinel-separated point list: `none` is the Python
`None` pen-break sentinel. -/
abbrev OptPt := Option Pt

/-- Embedding of `CADGenerator.self.scale = 50`, the meters-to-output scale used by the
`_generate_*_view` path generators. -/
def pathScale : ℚ := 50

/-- Split a sentinel-separated list into its (possibly empty) maximal
runs of consecutive points, exactly as the accumulating loop of
`_draw_view_dxf` does. -/
def splitRuns {α : Type} : List (Option α) → List (List α)
  | [] => [[]]
  | none :: rest => [] :: splitRuns rest
  | some a :: rest =>
    match splitRuns rest with
    | [] => [[a]]
    | r :: rs => (a :: r) :: rs

/-- The non-empty maximal runs: `_draw_view_dxf` emits one polyline per
run, skipping empty ones (`if current_polyline:`). -/
def nonEmptyRuns {α : Type} (ps : List (Option α)) : List (List α) :=
  (splitRuns ps).filter (fun r => !r.isEmpty)

/-- The lengths of the emitted subpaths of a sentinel-separated list. -/
def runLengths {α : Type} (ps : List (Option α)) : List ℕ :=
  (nonEmptyRuns ps).map List.length

/-- Embedding of `CADGenerator._generate_chair_top_view` (cad_generator.py lines
245-272): the 5-point seat outline followed by four legs, each a single
point between sentinels (the source comment says the legs are
"small circles represented as points"). -/
def chairTopView (width length : ℚ) : List OptPt :=
  [ some (-(width*pathScale)/2, -(length*pathScale)/2),
    some ((width*pathScale)/2, -(length*pathScale)/2),
    some ((width*pathScale)/2, (length*pathScale)/2),
    some (-(width*pathScale)/2, (length*pathScale)/2),
    some (-(width*pathScale)/2, -(length*pathScale)/2),
    none,
    some (-(width*pathScale)/2 + 0.03*pathScale, -(length*pathScale)/2 + 0.03*pathScale),
    none,
    some ((width*pathScale)/2 - 0.03*pathScale, -(length*pathScale)/2 + 0.03*pathScale),
    none,
    some (-(width*pathScale)/2 + 0.03*pathScale, (length*pathScale)/2 - 0.03*pathScale),
    none,
    some ((width*pathScale)/2 - 0.03*pathScale, (length*pathScale)/2 - 0.03*pathScale) ]

/-- Embedding of `CADGenerator._generate_chair_front_view` (cad_generator.py lines
107-148).  All dimensions are the fixed 0.40 x 0.45 chair constants
multiplied by the scale 50; the leg loop runs over the two x positions
`leg_inset` and `width - leg_inset` and appends two 2-point strokes per
iteration. -/
def chairFrontView : List OptPt :=
  [ some (0, 0.40*pathScale), some (0.40*pathScale, 0.40*pathScale),
    some (0.40*pathScale, 0.40*pathScale + 0.04*pathScale),
    some (0, 0.40*pathScale + 0.04*pathScale),
    some (0, 0.40*pathScale),
    none,
    some (0.40*pathScale - 0.02*pathScale, 0.40*pathScale + 0.04*pathScale),
    some (0.40*pathScale, 0.40*pathScale + 0.04*pathScale),
    some (0.40*pathScale, 0.45*pathScale),
    some (0.40*pathScale - 0.02*pathScale, 0.45*pathScale),
    some (0.40*pathScale - 0.02*pathScale, 0.40*pathScale + 0.04*pathScale) ]
  ++ ([ 0.03*pathScale, 0.40*pathScale - 0.03*pathScale ] : List ℚ).flatMap (fun x =>
      [ none, some (x, 0), some (x, 0.40*pathScale),
        none, some (x + 0.35*pathScale, 0), some (x + 0.35*pathScale, 0.40*pathScale) ])

/-- Embedding of `CADGenerator._generate_table_top_view(width, length)` (cad_generator.py
lines 274-299); its arguments arrive already multiplied by the scale. -/
def tableTopView (width length : ℚ) : List OptPt :=
  [ some (0, 0), some (width, 0), some (width, length), some (0, length), some (0, 0) ]
  ++ ([ (width*0.05, width*0.05),
        (width - width*0.05 - width*0.06, width*0.05),
        (width*0.05, length - width*0.05 - width*0.06),
        (width - width*0.05 - width*0.06, length - width*0.05 - width*0.06) ]
      : List Pt).flatMap (fun p =>
      [ none, some (p.1, p.2), some (p.1 + width*0.06, p.2),
        some (p.1 + width*0.06, p.2 + width*0.06), some (p.1, p.2 + width*0.06),
        some (p.1, p.2) ])

/-- Embedding of `CADGenerator._generate_sofa_top_view(width, length)` (cad_generator.py
lines 301-323); its arguments arrive already multiplied by the scale. -/
def sofaTopView (width length : ℚ) : List OptPt :=
  [ some (0, 0), some (width, 0), some (width, length), some (0, length), some (0, 0),
    none,
    some (0, 0), some (width*0.15, 0), some (width*0.15, length), some (0, length),
    none,
    some (width - width*0.15, 0), some (width, 0), some (width, length),
    some (width - width*0.15, length),
    none,
    some (width*0.15, length*0.9), some (width - width*0.15, length*0.9) ]

/-- A Python runtime error raised by the 2D top-view dispatcher. -/
inductive PyErr where
  /-- Python `TypeError`: a call with the wrong number of positional arguments. -/
  | typeError
  /-- Python `AttributeError`: a call of a method that the class never defines. -/
  | attributeError
deriving DecidableEq, Repr

/-- Embedding of `CADGenerator._generate_top_view` (cad_generator.py lines 69-86),
with the raw (unscaled) dimensions of the parsed object.  The source
lowercases the type tag before dispatching; the embedding takes the
already-lowercased tag.  The method performs no dimension validation of
any kind.  Its branches:

* `"kursi"` (chair), `"meja"` (table), `"sofa"`: return the embedded
  point lists;
* `"ruangan"` (room): calls
  `self._generate_room_top_view(width*scale, length*scale)`, but the
  method is declared as `(self, parsed_obj, width, length)`, so the call
  is missing one positional argument and raises `TypeError` for every
  input;
* `"rumah"` (house), `"lingkaran"` (circle) and the generic fallback
  call `_generate_house_top_view`, `_generate_circle_top_view` and
  `_generate_generic_top_view`, none of which is defined anywhere in the
  class, so each branch raises `AttributeError` for every input. -/
def generateTopView (objectType : String) (width length : ℚ) :
    Except PyErr (List OptPt) :=
  if objectType = "kursi" then .ok (chairTopView width length)
  else if objectType = "meja" then .ok (tableTopView (width*pathScale) (length*pathScale))
  else if objectType = "sofa" then .ok (sofaTopView (width*pathScale) (length*pathScale))
  else if objectType = "ruangan" then .error .typeError
  else if objectType = "rumah" then .error .attributeError
  else if objectType = "lingkaran" then .error .attributeError
  else .error .attributeError

/- ----------------------------------------------------------------------
SVG drawing: `CADGenerator._draw_furniture_svg` (cad_generator.py lines
812-1261).  Only the geometric content of each emitted element is
modelled; colors, stroke widths, fonts, dash patterns and corner radii
are presentation attributes with no geometric meaning.
---------------------------------------------------------------------- -/

/-- One emitted SVG element.

* `circlePolar` records a circle whose center the source computes as
  `(cx + d*cos(angle), cy + d*sin(angle))`; the distance and the angle in
  degrees are stored symbolically to stay inside `ℚ` (lossless);
* `arc` is the door-swing `A rx ry ...` path of the room top view;
* `textNum` is a label whose string interpolates the recorded numeric
  value. -/
inductive SvgElem where
  | rect (pos size : Pt)
  | circle (center : Pt) (r : ℚ)
  | circlePolar (center : Pt) (dist angleDeg r : ℚ)
  | line (p q : Pt)
  | polygon (pts : List Pt)
  | arc (start : Pt) (rx ry : ℚ) (stop : Pt)
  | text (s : String) (pos : Pt)
  | textNum (s : String) (value : ℚ) (pos : Pt)
deriving DecidableEq, Repr

/-- Chair branch of `_draw_furniture_svg` (cad_generator.py lines
814-863): top view is the seat rectangle, exactly four leg circles at the
corner positions (`margin = 5`), and a label; front view is the seat bar,
two leg lines and two labels.  The `features` map is never consulted. -/
def drawChairSvg (width length height sc x y : ℚ) (view : String) : List SvgElem :=
  if view = "top" then
    [ SvgElem.rect (x, y) (width*sc, length*sc),
      SvgElem.circle (x + 5, y + 5) 3,
      SvgElem.circle (x + width*sc - 5, y + 5) 3,
      SvgElem.circle (x + width*sc - 5, y + length*sc - 5) 3,
      SvgElem.circle (x + 5, y + length*sc - 5) 3,
      SvgElem.text "SEAT" (x + (width*sc)/2 - 10, y + (length*sc)/2 + 2) ]
  else
    [ SvgElem.rect (x, y) (width*sc, 4),
      SvgElem.line (x + 5, y + height*sc) (x + 5, y + 4),
      SvgElem.line (x + width*sc - 5, y + height*sc) (x + width*sc - 5, y + 4),
      SvgElem.text "SEAT" (x + (width*sc)/2 - 10, y - 5),
      SvgElem.text "LEGS" (x + 2, y + height*sc - 5) ]

/-- Table branch of `_draw_furniture_svg` (cad_generator.py lines
865-919): circular top view when `seat_shape == circular` (cylinder
outline plus `int(features.get(legs, 4) or 4)` leg circles at polar
angle `360*i/n - 90` degrees), rectangular otherwise; front view is a
thin top bar plus two leg lines. -/
def drawTableSvg (width length height sc x y : ℚ) (features : Features)
    (view : String) : List SvgElem :=
  if view = "top" then
    if features.seatShape = some "circular" then
      [ SvgElem.circle (x + (width*sc)/2, y + (width*sc)/2) ((width*sc)/2),
        SvgElem.text "Ø" (x + (width*sc)/2 - 5, y + (width*sc)/2 + 5) ]
      ++ (List.range (getOrDefault features.legs 4).toNat).map (fun i =>
          SvgElem.circlePolar (x + (width*sc)/2, y + (width*sc)/2)
            (((width*sc)/2) * 0.7)
            (360 * (i : ℚ) / ((getOrDefault features.legs 4).toNat : ℚ) - 90) 5)
      ++ [ SvgElem.textNum "Leg to edge distance cm"
            ((((width*sc)/2) - ((width*sc)/2) * 0.7) / sc * 100)
            (x + (width*sc)/2 - 55, y - 15) ]
    else
      [ SvgElem.rect (x, y) (width*sc, length*sc),
        SvgElem.circle (x + 10, y + 10) 4,
        SvgElem.circle (x + width*sc - 10, y + 10) 4,
        SvgElem.circle (x + width*sc - 10, y + length*sc - 10) 4,
        SvgElem.circle (x + 10, y + length*sc - 10) 4 ]
  else
    [ SvgElem.rect (x, y) (width*sc, 8),
      SvgElem.line (x + 10, y + 8) (x + 10, y + height*sc),
      SvgElem.line (x + width*sc - 10, y + 8) (x + width*sc - 10, y + height*sc) ]

/-- Room branch of `_draw_furniture_svg` (cad_generator.py lines
921-986): plan rectangle with door gap, swing arc and window mark
(each only when the corresponding count is positive), elevation rectangle
with a centered window. -/
def drawRoomSvg (width length height sc x y : ℚ) (features : Features)
    (view : String) : List SvgElem :=
  if view = "top" then
    [ SvgElem.rect (x, y) (width*sc, length*sc) ]
    ++ (if 0 < getOrDefault features.doors 0 then
        [ SvgElem.line (x, y + (length*sc)/2 - 15) (x, y + (length*sc)/2 - 15 + 30),
          SvgElem.line (x, y + (length*sc)/2 - 15) (x, y + (length*sc)/2 - 15 + 30),
          SvgElem.arc (x, y + (length*sc)/2 - 15) 30 30
            (x + 30, y + (length*sc)/2 - 15 + 30),
          SvgElem.text "PINTU" (x - 40, y + (length*sc)/2 - 15 + 15) ]
        else [])
    ++ (if 0 < getOrDefault features.windows 0 then
        [ SvgElem.line (x + (width*sc)/2 - 20, y) (x + (width*sc)/2 - 20 + 40, y),
          SvgElem.line (x + (width*sc)/2 - 20, y) (x + (width*sc)/2 - 20 + 40, y),
          SvgElem.rect (x + (width*sc)/2 - 20, y - 3) (40, 6),
          SvgElem.text "JENDELA" (x + (width*sc)/2 - 20 + 5, y - 10) ]
        else [])
  else
    [ SvgElem.rect (x, y) (width*sc, height*sc) ]
    ++ (if 0 < getOrDefault features.windows 0 then
        [ SvgElem.rect (x + (width*sc)/2 - 20, y + (height*sc)/2 - 15) (40, 30),
          SvgElem.line (x + (width*sc)/2, y + (height*sc)/2 - 15)
            (x + (width*sc)/2, y + (height*sc)/2 - 15 + 30),
          SvgElem.line (x + (width*sc)/2 - 20, y + (height*sc)/2)
            (x + (width*sc)/2 - 20 + 40, y + (height*sc)/2),
          SvgElem.text "JENDELA" (x + (width*sc)/2 - 20 + 5, y + (height*sc)/2 - 15 - 5) ]
        else [])
    ++ [ SvgElem.text "NORTH WALL VIEW" (x + 5, y + height*sc - 5) ]

/-- House branch of `_draw_furniture_svg` (cad_generator.py lines
989-1105).  Top view: main body (75% width with a garage), garage block
and door, room-division marks when `bedrooms >= 2`, entrance, and
side-wall window marks (`int(features.get(windows, 4) or 4)`, halved per
side).  Front view uses a *different* main-width ratio (70%) plus roof,
garage with five door panels, entrance door and handle. -/
def drawHouseSvg (width length height sc x y : ℚ) (features : Features)
    (view : String) : List SvgElem :=
  let hasGarage := features.hasGarage.getD false
  if view = "top" then
    let mainWidth := if hasGarage then width*sc * 0.75 else width*sc
    let windowsPerSide := ((getOrDefault features.windows 4).fdiv 2).toNat
    [ SvgElem.rect (x, y) (mainWidth, length*sc) ]
    ++ (if hasGarage then
        [ SvgElem.rect (x + mainWidth, y + length*sc - (length*sc)*0.5)
            ((width*sc)*0.25, (length*sc)*0.5),
          SvgElem.rect (x + mainWidth + 2, y + length*sc - 2) ((width*sc)*0.25 - 4, 4),
          SvgElem.text "GARAGE" (x + mainWidth + 5, y + length*sc - (length*sc)*0.5 + 20) ]
        else [])
    ++ (if 2 ≤ getOrDefault features.bedrooms 2 then
        [ SvgElem.line (x, y + (length*sc)*0.6) (x + mainWidth, y + (length*sc)*0.6),
          SvgElem.text "LIVING" (x + mainWidth/2 - 15, y + (length*sc)*0.8),
          SvgElem.line (x + mainWidth/2, y) (x + mainWidth/2, y + (length*sc)*0.6),
          SvgElem.text "BR1" (x + mainWidth/4 - 8, y + (length*sc)*0.3),
          SvgElem.text "BR2" (x + mainWidth*0.75 - 8, y + (length*sc)*0.3) ]
        else [])
    ++ [ SvgElem.rect (x + mainWidth/2 - 15/2, y + length*sc - 2) (15, 4),
         SvgElem.text "ENTRANCE" (x + mainWidth/2 - 15/2 - 10, y + length*sc + 12) ]
    ++ (List.range windowsPerSide).flatMap (fun i =>
        [ SvgElem.rect (x - 2, y + ((length*sc) / ((windowsPerSide : ℚ) + 1)) * ((i : ℚ) + 1) - 6)
            (4, 12),
          SvgElem.rect (x + mainWidth - 2,
              y + ((length*sc) / ((windowsPerSide : ℚ) + 1)) * ((i : ℚ) + 1) - 6)
            (4, 12) ])
  else
    let mainWidth := if hasGarage then width*sc * 0.7 else width*sc
    [ SvgElem.rect (x, y) (mainWidth, height*sc) ]
    ++ (if features.style = some "modern" then
        [ SvgElem.polygon [ (x - 5, y), (x + mainWidth + 5, y),
            (x + mainWidth, y - 10), (x, y - 10) ] ]
        else
        [ SvgElem.polygon [ (x - 5, y), (x + mainWidth/2, y - 20),
            (x + mainWidth + 5, y) ] ])
    ++ (if hasGarage then
        SvgElem.rect (x + mainWidth, y + height*sc - (height*sc)*0.65)
          ((width*sc)*0.3, (height*sc)*0.65) ::
        (List.range 5).map (fun i =>
          SvgElem.line
            (x + mainWidth + 2, y + height*sc - (height*sc)*0.65 + (i : ℚ) * ((height*sc)*0.65) / 5)
            (x + mainWidth + (width*sc)*0.3 - 2,
             y + height*sc - (height*sc)*0.65 + (i : ℚ) * ((height*sc)*0.65) / 5))
        else [])
    ++ [ SvgElem.rect (x + mainWidth/2 - 15/2, y + height*sc - 30) (15, 30),
         SvgElem.circle (x + mainWidth/2 - 15/2 + 15 - 3, y + height*sc - 30 + 30/2) 2 ]

/-- Sofa branch of `_draw_furniture_svg` (cad_generator.py lines
1107-1190).  The sofa is drawn with `length` horizontal: top view is
backrest band, left armrest, one cushion per seat
(`int(features.get(seats, 2) or 2)`), right armrest and a label; front
view is the backrest (55% of the height), the seat (45%), two armrests
(70%) and two labels. -/
def drawSofaSvg (width length height sc x y : ℚ) (features : Features)
    (view : String) : List SvgElem :=
  if view = "top" then
    let w := length*sc
    let l := width*sc
    [ SvgElem.rect (x, y) (w, l * 0.2),
      SvgElem.rect (x, y + l * 0.2) (w * 0.12, l - l * 0.2) ]
    ++ (List.range (getOrDefault features.seats 2).toNat).map (fun i =>
        SvgElem.rect
          (x + w * 0.12 + (i : ℚ) * ((w - 2 * (w * 0.12)) / ((getOrDefault features.seats 2).toNat : ℚ)) + 2,
           y + l * 0.2 + 3)
          (((w - 2 * (w * 0.12)) / ((getOrDefault features.seats 2).toNat : ℚ)) - 4,
           (l - l * 0.2) - 6))
    ++ [ SvgElem.rect (x + w - w * 0.12, y + l * 0.2) (w * 0.12, l - l * 0.2),
         SvgElem.text "SOFA" (x + w/2 - 12, y + l/2) ]
  else
    let w := length*sc
    let h := height*sc
    [ SvgElem.rect (x + w * 0.12, y) (w * (1 - 2 * 0.12), h * 0.55),
      SvgElem.rect (x, y + h * 0.55) (w, h * 0.45),
      SvgElem.rect (x, y + h - h * 0.7) (w * 0.12, h * 0.7),
      SvgElem.rect (x + w * (1 - 0.12), y + h - h * 0.7) (w * 0.12, h * 0.7),
      SvgElem.text "BACK" (x + w/2 - 12, y + (h * 0.55)/2 + 5),
      SvgElem.text "SEAT" (x + w/2 - 12, y + h - (h * 0.45)/2 + 5) ]

/-- Cabinet branch of `_draw_furniture_svg` (cad_generator.py lines
1192-1250): body rectangle, `doors - 1` division lines, one handle per
door on its inner edge (front view only), and short legs. -/
def drawCabinetSvg (width length height sc x y : ℚ) (features : Features)
    (view : String) : List SvgElem :=
  let numDoors := (getOrDefault features.doors 2).toNat
  if view = "top" then
    SvgElem.rect (x, y) (width*sc, length*sc) ::
    ((List.range numDoors).drop 1).map (fun i =>
      SvgElem.line (x + (i : ℚ) * ((width*sc) / (numDoors : ℚ)), y)
        (x + (i : ℚ) * ((width*sc) / (numDoors : ℚ)), y + length*sc))
    ++ [ SvgElem.text "CABINET" (x + (width*sc)/2 - 18, y + (length*sc)/2) ]
  else
    SvgElem.rect (x, y) (width*sc, height*sc) ::
    ((List.range numDoors).drop 1).map (fun i =>
      SvgElem.line (x + (i : ℚ) * ((width*sc) / (numDoors : ℚ)), y)
        (x + (i : ℚ) * ((width*sc) / (numDoors : ℚ)), y + height*sc))
    ++ (List.range numDoors).map (fun i =>
        SvgElem.rect
          ((if (i : ℚ) < (numDoors : ℚ) / 2 then
              x + ((i : ℚ) + 1) * ((width*sc) / (numDoors : ℚ))
                - ((width*sc) / (numDoors : ℚ)) * 0.2 - 2
            else
              x + (i : ℚ) * ((width*sc) / (numDoors : ℚ))
                + ((width*sc) / (numDoors : ℚ)) * 0.2 - 2),
           y + (height*sc)/2 - 8)
          (4, 16))
    ++ ([ (0.15 : ℚ), 0.85 ] : List ℚ).flatMap (fun r =>
        (List.range numDoors).map (fun j =>
          SvgElem.rect
            (x + (j : ℚ) * ((width*sc) / (numDoors : ℚ))
               + ((width*sc) / (numDoors : ℚ)) * r - 3,
             y + height*sc)
            (6, 8)))

/-- Embedding of `CADGenerator._draw_furniture_svg` (cad_generator.py lines 812-1261):
dispatch on the furniture-type string; an unmatched tag falls back to a
single rectangle of `width x length` (top view) or `width x height`
(front view). -/
def drawFurnitureSvg (furnitureType : String) (width length height sc x y : ℚ)
    (features : Features) (view : String) : List SvgElem :=
  if furnitureType = "chair" then drawChairSvg width length height sc x y view
  else if furnitureType = "table" then drawTableSvg width length height sc x y features view
  else if furnitureType = "room" then drawRoomSvg width length height sc x y features view
  else if furnitureType = "house" then drawHouseSvg width length height sc x y features view
  else if furnitureType = "sofa" then drawSofaSvg width length height sc x y features view
  else if furnitureType = "cabinet" then drawCabinetSvg width length height sc x y features view
  else if view = "top" then [ SvgElem.rect (x, y) (width*sc, length*sc) ]
  else [ SvgElem.rect (x, y) (width*sc, height*sc) ]

/- ----------------------------------------------------------------------
Theorems settling the claims.
---------------------------------------------------------------------- -/

/-- Building block: `Pairwise` on a two-element list. -/
theorem pairwise_two {α : Type} {R : α → α → Prop} {a b : α}
    (hab : R a b) : List.Pairwise R [a, b] := by
  refine List.Pairwise.cons ?_ (List.Pairwise.cons ?_ List.Pairwise.nil)
  · intro x hx
    rcases List.mem_singleton.mp hx with h
    exact h ▸ hab
  · intro x hx
    exact absurd hx (List.not_mem_nil x)

/-- Building block: `Pairwise` on a three-element list. -/
theorem pairwise_three {α : Type} {R : α → α → Prop} {a b c : α}
    (hab : R a b) (hac : R a c) (hbc : R b c) : List.Pairwise R [a, b, c] := by
  refine List.Pairwise.cons ?_ (pairwise_two hbc)
  intro x hx
  rcases List.mem_cons.mp hx with h | hx2
  · exact h ▸ hab
  · rcases List.mem_singleton.mp hx2 with h
    exact h ▸ hac

/-- Building block: `Pairwise` on a four-element list. -/
theorem pairwise_four {α : Type} {R : α → α → Prop} {a b c d : α}
    (hab : R a b) (hac : R a c) (had : R a d) (hbc : R b c) (hbd : R b d)
    (hcd : R c d) : List.Pairwise R [a, b, c, d] := by
  refine List.Pairwise.cons ?_ (pairwise_three hbc hbd hcd)
  intro x hx
  rcases List.mem_cons.mp hx with h | hx2
  · exact h ▸ hab
  · rcases List.mem_cons.mp hx2 with h | hx3
    · exact h ▸ hac
    · rcases List.mem_singleton.mp hx3 with h
      exact h ▸ had

/-- Claim C1, counterexample.  The claim asserts that `w < W` and `h < H`
alone guarantee that the areas of the surviving sub-panels sum to
`W*H - w*h`, naming the north-wall boxes around the window as an
instance.  For the north wall of a room of width 4 and height 3/2 the
window opening `(1.2, 1.0)` satisfies `w < W` and `h < H`, yet the
areas of the emitted sub-panels sum to 27/5, not `4*(3/2) - 1.2*1.0 = 24/5`:
the window band (sill 1.0, head 2.0) pokes above a wall of height 3/2,
so mere `h < H` does not make the areas balance. -/
theorem C1_counterexample_window_area :
    windowWidth < 4 ∧ windowHeight < 3/2 ∧
    sumAreaXZ (northWallBoxes 4 5 (3/2)) ≠ 4 * (3/2) - windowWidth * windowHeight := by
  refine ⟨by norm_num [windowWidth], by norm_num [windowHeight], ?_⟩
  norm_num [northWallBoxes, sumAreaXZ, areaXZ, windowWidth, windowHeight,
    windowFromFloor, wallThickness]

/-- Claim C1, amended.  Opening-segmentation area conservation as the code
actually guarantees it: for the west wall (door opening, cut from the
floor) the hypotheses `doorWidth < length` and `doorHeight < height`
suffice; for the north wall (window opening, cut at sill height) the
vertical hypothesis must be full containment
`windowFromFloor + windowHeight ≤ height`.  Under these hypotheses the
emitted sub-panels of each wall are pairwise non-overlapping in the wall
plane and their face areas sum exactly (the embedding is exact rational
arithmetic, so "within floating-point tolerance" becomes equality) to
panel area minus opening area. -/
theorem C1_wall_segmentation_area_conservation
    (width length height : ℚ)
    (hdw : doorWidth < length) (hdh : doorHeight < height)
    (hww : windowWidth < width) (hwc : windowFromFloor + windowHeight ≤ height) :
    (List.Pairwise (fun a b => ¬ overlapYZ a b) (westWallBoxes width length height) ∧
      sumAreaYZ (westWallBoxes width length height)
        = length * height - doorWidth * doorHeight) ∧
    (List.Pairwise (fun a b => ¬ overlapXZ a b) (northWallBoxes width length height) ∧
      sumAreaXZ (northWallBoxes width length height)
        = width * height - windowWidth * windowHeight) := by
  norm_num [doorWidth, doorHeight] at hdw hdh
  norm_num [windowWidth, windowFromFloor, windowHeight] at hww hwc
  constructor
  · have hpos : height - doorHeight > 0 := by norm_num [doorHeight]; linarith
    constructor
    · rw [westWallBoxes, if_pos hpos]
      simp only [List.cons_append, List.nil_append]
      refine pairwise_three ?_ ?_ ?_
      all_goals rintro ⟨h1, h2⟩
      all_goals rw [abs_lt] at h1 h2
      all_goals obtain ⟨h1a, h1b⟩ := h1
      all_goals obtain ⟨h2a, h2b⟩ := h2
      all_goals norm_num [wallThickness, doorWidth, doorHeight] at h1a h1b h2a h2b
      all_goals linarith
    · rw [westWallBoxes, if_pos hpos]
      simp only [sumAreaYZ, areaYZ, List.cons_append, List.nil_append, List.map_cons,
        List.map_nil, List.sum_cons, List.sum_nil]
      norm_num [doorWidth, doorHeight]
      ring
  · rcases lt_or_eq_of_le hwc with h2lt | h2eq
    · have hpos : height - windowFromFloor - windowHeight > 0 := by
        norm_num [windowFromFloor, windowHeight]; linarith
      constructor
      · rw [northWallBoxes, if_pos hpos]
        simp only [List.cons_append, List.nil_append]
        refine pairwise_four ?_ ?_ ?_ ?_ ?_ ?_
        all_goals rintro ⟨h1, h2⟩
        all_goals rw [abs_lt] at h1 h2
        all_goals obtain ⟨h1a, h1b⟩ := h1
        all_goals obtain ⟨h2a, h2b⟩ := h2
        all_goals norm_num [wallThickness, windowWidth, windowFromFloor,
          windowHeight] at h1a h1b h2a h2b
        all_goals linarith
      · rw [northWallBoxes, if_pos hpos]
        simp only [sumAreaXZ, areaXZ, List.cons_append, List.nil_append, List.map_cons,
          List.map_nil, List.sum_cons, List.sum_nil]
        norm_num [windowWidth, windowFromFloor, windowHeight]
        ring
    · have hh : height = 2 := h2eq.symm
      subst hh
      have hneg : ¬ ((2 : ℚ) - windowFromFloor - windowHeight > 0) := by
        norm_num [windowFromFloor, windowHeight]
      constructor
      · rw [northWallBoxes, if_neg hneg]
        simp only [List.append_nil]
        refine pairwise_three ?_ ?_ ?_
        all_goals rintro ⟨h1, h2⟩
        all_goals rw [abs_lt] at h1 h2
        all_goals obtain ⟨h1a, h1b⟩ := h1
        all_goals obtain ⟨h2a, h2b⟩ := h2
        all_goals norm_num [wallThickness, windowWidth, windowFromFloor,
          windowHeight] at h1a h1b h2a h2b
        all_goals linarith
      · rw [northWallBoxes, if_neg hneg]
        simp only [sumAreaXZ, areaXZ, List.append_nil, List.map_cons,
          List.map_nil, List.sum_cons, List.sum_nil]
        norm_num [windowWidth, windowFromFloor, windowHeight]
        ring

/-- Claim C1, witness: the amended conservation theorem applied to the
default 4 x 5 x 3 room. -/
theorem C1_wall_segmentation_witness :
    (List.Pairwise (fun a b => ¬ overlapYZ a b) (westWallBoxes 4 5 3) ∧
      sumAreaYZ (westWallBoxes 4 5 3) = 5 * 3 - doorWidth * doorHeight) ∧
    (List.Pairwise (fun a b => ¬ overlapXZ a b) (northWallBoxes 4 5 3) ∧
      sumAreaXZ (northWallBoxes 4 5 3) = 4 * 3 - windowWidth * windowHeight) :=
  C1_wall_segmentation_area_conservation 4 5 3 (by norm_num [doorWidth])
    (by norm_num [doorHeight]) (by norm_num [windowWidth])
    (by norm_num [windowFromFloor, windowHeight])

/-- Claim C2, counterexample.  For the default 4 x 5 x 3 room the claim
requires the bottom sub-panel to span the full panel width (4 m after
scaling down, i.e. `extents.x = width`) and the lateral sub-panels to be
restricted to the vertical band of the opening (`extents.z = windowHeight`
with z-center at sill mid-height).  The code does the opposite: the first
emitted north-wall box (`wall_left_window`) is a full-height column
(`extents.z = 3`, not `windowHeight = 1`), and the third emitted box
(`wall_below_window`) is only as wide as the window
(`extents.x = windowWidth = 1.2`, not the panel width 4). -/
theorem C2_counterexample_window_decomposition :
    ((northWallBoxes 4 5 3)[0]?.map (fun b => b.extents.z)) = some 3 ∧
    (3 : ℚ) ≠ windowHeight ∧
    ((northWallBoxes 4 5 3)[2]?.map (fun b => b.extents.x)) = some windowWidth ∧
    windowWidth ≠ 4 := by
  refine ⟨?_, by norm_num [windowHeight], ?_, by norm_num [windowWidth]⟩ <;>
    norm_num [northWallBoxes, windowWidth, windowFromFloor, windowHeight, wallThickness]

/-- Claim C2, amended.  The window-case decomposition the code emits is
the transpose of the claimed one: the *left*/*right* lateral sub-panels
span the full panel height (z-extent `height`, centered at 0), while the
*bottom* and *top* sub-panels are restricted horizontally to the window
band (x-extent `windowWidth`); the bottom one spans from the floor up to
`windowFromFloor` and the top one from `windowFromFloor + windowHeight`
up to the panel top. -/
theorem C2_window_decomposition_shape (width length height : ℚ)
    (hcont : windowFromFloor + windowHeight < height) :
    ((northWallBoxes width length height)[0]?.map (fun b => (b.extents.z, b.center.z)))
      = some (height, 0) ∧
    ((northWallBoxes width length height)[1]?.map (fun b => (b.extents.z, b.center.z)))
      = some (height, 0) ∧
    ((northWallBoxes width length height)[2]?.map (fun b => (b.extents.x, zLow b, zHigh b)))
      = some (windowWidth, -height/2, -height/2 + windowFromFloor) ∧
    ((northWallBoxes width length height)[3]?.map (fun b => (b.extents.x, zLow b, zHigh b)))
      = some (windowWidth, -height/2 + windowFromFloor + windowHeight, height/2) := by
  have hpos : height - windowFromFloor - windowHeight > 0 := by linarith
  rw [northWallBoxes, if_pos hpos]
  simp only [List.cons_append, List.nil_append]
  norm_num [zLow, zHigh]
  all_goals ring_nf
  all_goals norm_num

/-- Claim C2, witness: the amended decomposition shape at the default
4 x 5 x 3 room. -/
theorem C2_window_decomposition_witness :
    ((northWallBoxes 4 5 3)[0]?.map (fun b => (b.extents.z, b.center.z)))
      = some (3, 0) ∧
    ((northWallBoxes 4 5 3)[1]?.map (fun b => (b.extents.z, b.center.z)))
      = some (3, 0) ∧
    ((northWallBoxes 4 5 3)[2]?.map (fun b => (b.extents.x, zLow b, zHigh b)))
      = some (windowWidth, -3/2, -3/2 + windowFromFloor) ∧
    ((northWallBoxes 4 5 3)[3]?.map (fun b => (b.extents.x, zLow b, zHigh b)))
      = some (windowWidth, -3/2 + windowFromFloor + windowHeight, 3/2) := by
  have h := C2_window_decomposition_shape 4 5 3
    (by norm_num [windowFromFloor, windowHeight])
  norm_num at h ⊢
  exact h

/-- Claim C3, counterexample.  Take a room whose length equals the door
width, so `opening_width = panel_width` for the west wall.  The claim
says the segmentation then returns the empty sub-panel set and that every
sub-panel with a non-positive extent is dropped.  The code instead still
emits three boxes (the two lateral panels, each of width
`(doorWidth - doorWidth)/2 = 0`, plus the above-door panel): nothing
drops a zero-width panel. -/
theorem C3_counterexample_degenerate_opening :
    (westWallBoxes 4 doorWidth 3).length = 3 ∧
    ((westWallBoxes 4 doorWidth 3)[0]?.map (fun b => b.extents.y)) = some 0 := by
  constructor <;>
    norm_num [westWallBoxes, doorWidth, doorHeight, wallThickness]

/-- Claim C3, amended.  Only the *above-door* and *above-window*
sub-panels are guarded: each is emitted exactly when its computed height
is strictly positive.  The two lateral sub-panels of each wall and the
below-window panel are emitted unconditionally — even with a zero or
negative computed width (no exception is raised; the embedding is a total
function).  In particular the segmentation never returns the empty set:
for every input it emits at least the two lateral panels, whose width
`(panel_width - opening_width)/2` may be non-positive. -/
theorem C3_degenerate_opening_policy (width length height : ℚ) :
    (westWallBoxes width length height).length
      = (if height - doorHeight > 0 then 3 else 2) ∧
    (northWallBoxes width length height).length
      = (if height - windowFromFloor - windowHeight > 0 then 4 else 3) ∧
    ((westWallBoxes width length height)[0]?.map (fun b => b.extents.y))
      = some ((length - doorWidth)/2) ∧
    ((westWallBoxes width length height)[1]?.map (fun b => b.extents.y))
      = some ((length - doorWidth)/2) ∧
    ((northWallBoxes width length height)[0]?.map (fun b => b.extents.x))
      = some ((width - windowWidth)/2) ∧
    ((northWallBoxes width length height)[2]?.map (fun b => b.extents.z))
      = some windowFromFloor := by
  refine ⟨?_, ?_, ?_, ?_, ?_, ?_⟩
  · rw [westWallBoxes]
    by_cases h : height - doorHeight > 0
    · rw [if_pos h, if_pos h]
      rfl
    · rw [if_neg h, if_neg h]
      rfl
  · rw [northWallBoxes]
    by_cases h : height - windowFromFloor - windowHeight > 0
    · rw [if_pos h, if_pos h]
      rfl
    · rw [if_neg h, if_neg h]
      rfl
  · rw [westWallBoxes]
    rcases ite_eq_or_eq (height - doorHeight > 0)
        ([ ({ center := ⟨-width/2 - wallThickness/2, 0, height/2 - (height - doorHeight)/2⟩,
              extents := ⟨wallThickness, doorWidth, height - doorHeight⟩ } : Box3) ]) [] with h | h <;>
      rw [h] <;> rfl
  · rw [westWallBoxes]
    rcases ite_eq_or_eq (height - doorHeight > 0)
        ([ ({ center := ⟨-width/2 - wallThickness/2, 0, height/2 - (height - doorHeight)/2⟩,
              extents := ⟨wallThickness, doorWidth, height - doorHeight⟩ } : Box3) ]) [] with h | h <;>
      rw [h] <;> rfl
  · rw [northWallBoxes]
    rcases ite_eq_or_eq (height - windowFromFloor - windowHeight > 0)
        ([ ({ center := ⟨0, length/2 + wallThickness/2,
                         height/2 - (height - windowFromFloor - windowHeight)/2⟩,
              extents := ⟨windowWidth, wallThickness,
                          height - windowFromFloor - windowHeight⟩ } : Box3) ]) [] with h | h <;>
      rw [h] <;> rfl
  · rw [northWallBoxes]
    rcases ite_eq_or_eq (height - windowFromFloor - windowHeight > 0)
        ([ ({ center := ⟨0, length/2 + wallThickness/2,
                         height/2 - (height - windowFromFloor - windowHeight)/2⟩,
              extents := ⟨windowWidth, wallThickness,
                          height - windowFromFloor - windowHeight⟩ } : Box3) ]) [] with h | h <;>
      rw [h] <;> rfl

/-- Claim C4, counterexample.  For the default 0.40 x 0.40 chair the top
view emits subpaths of lengths `[5, 1, 1, 1, 1]`: after the 5-point
seat outline, each of the four legs is a *single point* between
sentinels (the source writes them as "small circles represented as
points"), so four subpaths have fewer than 2 points.  The drawers only
skip *empty* runs, so these degenerate one-point subpaths are emitted. -/
theorem C4_counterexample_single_point_subpaths :
    runLengths (chairTopView (2/5) (2/5)) = [5, 1, 1, 1, 1] ∧
    ¬ (∀ r ∈ nonEmptyRuns (chairTopView (2/5) (2/5)), 2 ≤ r.length) := by
  constructor
  · rfl
  · decide

/-- Claim C4, amended.  For every dimension pair the chair top view
consists of exactly one 5-point seat subpath followed by four single-point
leg subpaths (violating the no-subpath-shorter-than-2 invariant), while
the chair front view satisfies the invariant: its emitted subpaths have
lengths `[5, 5, 2, 2, 2, 2]`, all at least 2. -/
theorem C4_chair_view_subpath_lengths (width length : ℚ) :
    runLengths (chairTopView width length) = [5, 1, 1, 1, 1] ∧
    runLengths chairFrontView = [5, 5, 2, 2, 2, 2] := by
  exact ⟨rfl, rfl⟩

/-- Test for an SVG circle element (the chair top view draws one circle
per leg). -/
def isCircleElem (e : SvgElem) : Bool :=
  match e with
  | SvgElem.circle _ _ => true
  | _ => false

/-- Claim C5, counterexample.  For a chair spec with `legs = 2` the claim
requires `min 2 4 = 2` leg primitives/subpaths; the code emits 4 in the
3D mesh (elements after the leading seat slab) and 4 leg circles in the
2D SVG top view: the `legs` feature is never read by either chair
template. -/
theorem C5_counterexample_leg_count :
    ((createChairMesh (2/5) (2/5) (9/20) { legs := some 2 }).drop 1).length = 4 ∧
    ((drawFurnitureSvg "chair" (2/5) (2/5) (9/20) 150 80 140
        { legs := some 2 } "top").countP isCircleElem) = 4 ∧
    (4 : ℕ) ≠ min 2 4 := by
  refine ⟨rfl, ?_, by norm_num⟩
  rfl

/-- Claim C5, amended.  The chair templates ignore the `legs` feature
entirely: for every requested leg count `n` the 3D chair mesh is
identical to the mesh with no features at all and consists of one seat
slab followed by exactly 4 leg boxes, and the 2D SVG chair top view
always contains exactly 4 leg circles. -/
theorem C5_chair_legs_feature_ignored (n : ℤ) (width length height sc x y : ℚ) :
    createChairMesh width length height { legs := some n }
      = createChairMesh width length height { } ∧
    ((createChairMesh width length height { legs := some n }).drop 1).length = 4 ∧
    ((drawFurnitureSvg "chair" width length height sc x y
        { legs := some n } "top").countP isCircleElem) = 4 := by
  refine ⟨rfl, rfl, ?_⟩
  rfl

/-- Claim C6, counterexample.  The claim says synthesis raises exactly on
non-positive dimensions.  Both directions fail on
`_generate_top_view`: a table with width = length = 0 is accepted and
returns geometry (no dimension validation exists anywhere in the
dispatcher, so an `InvalidDimension` error is never produced), while a
room with perfectly valid 4 x 5 dimensions *always* raises — the room
branch calls `_generate_room_top_view` with one positional argument too
few, a `TypeError`. -/
theorem C6_counterexample_raise_behaviour :
    (generateTopView "meja" 0 0).isOk = true ∧
    (generateTopView "ruangan" 4 5) = Except.error PyErr.typeError := by
  exact ⟨rfl, rfl⟩

/-- Claim C6, amended.  The 2D top-view dispatcher performs no dimension
validation: for *every* rational width/length (positive or not) the
chair, table and sofa branches return geometry without raising.  The
branches that do raise do so for every input, independent of the
dimensions: the room branch always raises `TypeError` (argument-count
mismatch in the call to `_generate_room_top_view`), and the house,
circle and unmatched-tag branches always raise `AttributeError`
(`_generate_house_top_view`, `_generate_circle_top_view` and
`_generate_generic_top_view` are never defined). -/
theorem C6_no_dimension_validation (width length : ℚ) :
    (generateTopView "kursi" width length).isOk = true ∧
    (generateTopView "meja" width length).isOk = true ∧
    (generateTopView "sofa" width length).isOk = true ∧
    (generateTopView "ruangan" width length) = Except.error PyErr.typeError ∧
    (generateTopView "rumah" width length) = Except.error PyErr.attributeError ∧
    (generateTopView "lingkaran" width length) = Except.error PyErr.attributeError ∧
    (generateTopView "lamp" width length) = Except.error PyErr.attributeError := by
  exact ⟨rfl, rfl, rfl, rfl, rfl, rfl, rfl⟩

/-- Claim C7.  For the unsupported type tag `"lamp"` (matching no branch
of either dispatcher) and any dimensions and features: the 2D SVG
synthesis falls back to exactly one rectangle of size
`width x length` (scaled) for the top view and `width x height` (scaled)
for the front view, and the 3D synthesis falls back to exactly one box of
extents `width x length x height` centered at the origin — in every case a
total function result, with no error raised. -/
theorem C7_unsupported_type_fallback (width length height sc x y : ℚ) (f : Features) :
    drawFurnitureSvg "lamp" width length height sc x y f "top"
      = [ SvgElem.rect (x, y) (width*sc, length*sc) ] ∧
    drawFurnitureSvg "lamp" width length height sc x y f "front"
      = [ SvgElem.rect (x, y) (width*sc, height*sc) ] ∧
    createMeshFromType "lamp" width length height f
      = [ Prim.box { center := ⟨0, 0, 0⟩, extents := ⟨width, length, height⟩ } ] := by
  exact ⟨rfl, rfl, rfl⟩

/-- The polar angles (in degrees) of the `cylPolarZ` legs of a mesh, in
emission order. -/
def legAngles (ps : List Prim) : List ℚ :=
  ps.filterMap (fun p =>
    match p with
    | Prim.cylPolarZ _ _ _ angleDeg _ => some angleDeg
    | _ => none)

/-- Test for a cylinder primitive of any placement kind. -/
def isCylinderElem (p : Prim) : Bool :=
  match p with
  | Prim.cylZ _ _ _ => true
  | Prim.cylY _ _ _ => true
  | Prim.cylPolarZ _ _ _ _ _ => true
  | _ => false

/-- Claim C8.  For a circular table with `legs = 6` and any dimensions,
the 3D mesh consists of exactly 7 primitives, all cylindrical: first the
cylindrical top (radius `width/2`, placed just under the table height),
then 6 cylindrical legs at distance `0.7 * width/2` from the center whose
polar angles are `-90, -30, 30, 90, 150, 210` degrees — first leg at
-90 degrees per the fixed `- pi/2` start-angle convention (the "north"
direction on the SVG screen, whose y axis points down), with consecutive
legs exactly 60 degrees apart. -/
theorem C8_circular_table_six_legs (width length height : ℚ) :
    (createTableMesh width length height { seatShape := some "circular", legs := some 6 }).length = 7 ∧
    (createTableMesh width length height
        { seatShape := some "circular", legs := some 6 }).countP isCylinderElem = 7 ∧
    ((createTableMesh width length height
        { seatShape := some "circular", legs := some 6 })[0]?)
      = some (Prim.cylZ (width/2) 0.05 ⟨0, 0, height - 0.05/2⟩) ∧
    legAngles (createTableMesh width length height
        { seatShape := some "circular", legs := some 6 })
      = [-90, -30, 30, 90, 150, 210] ∧
    (List.zipWith (fun a b => b - a)
        (legAngles (createTableMesh width length height
          { seatShape := some "circular", legs := some 6 }))
        ((legAngles (createTableMesh width length height
          { seatShape := some "circular", legs := some 6 })).drop 1))
      = [60, 60, 60, 60, 60] := by
  refine ⟨rfl, rfl, rfl, ?_, ?_⟩ <;>
    simp [createTableMesh, legAngles, List.range_succ] <;> norm_num

/-- Claim C9.  The sofa round-trip proportion law.  In the 3D mesh the
seat slab (element 0) has z-extent `0.45 * height` rising from the floor,
and the backrest slab (element 1) has z-extent `0.55 * height` spanning
from exactly `0.45 * height` to the full height.  In the 2D SVG front
view the backrest rectangle (element 0) is `0.55` of the scaled height
tall and the seat rectangle (element 1) is `0.45` of the scaled height
tall, starting exactly where the backrest ends.  Both representations
use the identical `(0.55, 0.45)` vertical split fractions. -/
theorem C9_sofa_proportion_round_trip (width length height sc x y : ℚ) (f : Features) :
    ((createSofaMesh width length height f)[0]?.map (fun p =>
        match p with
        | Prim.smoothBox e c => some (e.z, c.z - e.z/2, c.z + e.z/2)
        | _ => none))
      = some (some (0.45*height, 0, 0.45*height)) ∧
    ((createSofaMesh width length height f)[1]?.map (fun p =>
        match p with
        | Prim.smoothBox e c => some (e.z, c.z - e.z/2, c.z + e.z/2)
        | _ => none))
      = some (some (0.55*height, 0.45*height, height)) ∧
    ((drawFurnitureSvg "sofa" width length height sc x y f "front")[0]?.map (fun e =>
        match e with
        | SvgElem.rect pos size => some (pos.2, size.2)
        | _ => none))
      = some (some (y, 0.55*(height*sc))) ∧
    ((drawFurnitureSvg "sofa" width length height sc x y f "front")[1]?.map (fun e =>
        match e with
        | SvgElem.rect pos size => some (pos.2, size.2)
        | _ => none))
      = some (some (y + 0.55*(height*sc), 0.45*(height*sc))) := by
  refine ⟨?_, ?_, ?_, ?_⟩ <;>
    simp [createSofaMesh, drawFurnitureSvg, drawSofaSvg] <;> ring_nf <;> norm_num

/-- Claim C10.  The room mesh is a constant function of its features
argument: `_create_room_mesh` never reads `features`, so any two feature
maps (any door/window counts or positions) yield the identical primitive
list, both directly and through the `_create_mesh_from_type` dispatcher.
The openings are always the fixed ones: the west-wall door gap is
`doorWidth = 0.8` wide (the lateral panels each have y-extent
`(length - 0.8)/2` and the door frame is `doorHeight = 2.0` tall), and
the north-wall window band is `windowWidth = 1.2` wide starting
`windowFromFloor = 1.0` above the floor with height `windowHeight = 1.0`
(the below-window panel has z-extent `1.0` and the window frame members
are `windowHeight` tall). -/
theorem C10_room_mesh_feature_independence (width length height : ℚ) (f₁ f₂ : Features) :
    createRoomMesh width length height f₁ = createRoomMesh width length height f₂ ∧
    createMeshFromType "room" width length height f₁
      = createMeshFromType "room" width length height f₂ ∧
    ((westWallBoxes width length height)[0]?.map (fun b => b.extents.y))
      = some ((length - doorWidth)/2) ∧
    ((doorFrameBoxes width height)[1]?.map (fun b => (b.center.y, b.extents.z)))
      = some (-doorWidth/2, doorHeight) ∧
    ((northWallBoxes width length height)[2]?.map (fun b => (b.extents.x, b.extents.z)))
      = some (windowWidth, windowFromFloor) ∧
    ((windowFrameBoxes width length height)[0]?.map (fun b => (b.center.x, b.extents.z)))
      = some (-windowWidth/2, windowHeight) := by
  refine ⟨rfl, rfl, ?_, ?_, ?_, ?_⟩
  · rw [westWallBoxes]
    rcases ite_eq_or_eq (height - doorHeight > 0)
        ([ ({ center := ⟨-width/2 - wallThickness/2, 0, height/2 - (height - doorHeight)/2⟩,
              extents := ⟨wallThickness, doorWidth, height - doorHeight⟩ } : Box3) ]) [] with h | h <;>
      rw [h] <;> norm_num [doorWidth]
  · norm_num [doorFrameBoxes, doorWidth, doorHeight, wallThickness]
  · rw [northWallBoxes]
    rcases ite_eq_or_eq (height - windowFromFloor - windowHeight > 0)
        ([ ({ center := ⟨0, length/2 + wallThickness/2,
                         height/2 - (height - windowFromFloor - windowHeight)/2⟩,
              extents := ⟨windowWidth, wallThickness,
                          height - windowFromFloor - windowHeight⟩ } : Box3) ]) [] with h | h <;>
      rw [h] <;> norm_num [windowWidth, windowFromFloor, wallThickness]
  · norm_num [windowFrameBoxes, windowWidth, windowHeight, windowFromFloor, wallThickness]

end CADpython
